import Mathlib

/-!
Shallow embedding of the neuroloopy dashboard relay server
(src/neuroloopy/dashboard/server.js): a five-channel latest-value store,
HTTP ingestion handlers, WebSocket replay on connect, and a broadcast hub.
JavaScript numbers are modelled as rationals plus NaN; machine floating
point is never exercised by the handlers beyond parse/store/echo.
-/

namespace Dashboard

/-- A JavaScript number: a finite value (modelled as a rational) or NaN.
The handlers only parse, store and echo numbers, so no float rounding
is ever observable. -/
inductive JsNum where
  | num (q : ℚ)
  | nan
deriving DecidableEq

/-- A JSON/JavaScript value as it can appear in a request body field.
`undef` stands for a field absent from the body (destructuring yields
`undefined`). -/
inductive JsValue where
  | undef
  | null
  | bool (b : Bool)
  | num (n : JsNum)
  | str (s : String)
  | arr (xs : List JsValue)

/-- Strict comparison with undefined (`x === undefined`). -/
def isUndef : JsValue → Bool
  | .undef => true
  | _ => false

/-- JavaScript truthiness, as used by `!params` and `Boolean(sent)`. -/
def jsTruthy : JsValue → Bool
  | .undef => false
  | .null => false
  | .bool b => b
  | .num .nan => false
  | .num (.num q) => decide (q ≠ 0)
  | .str s => !s.isEmpty
  | .arr _ => true

/-- `Array.isArray`. -/
def isArray : JsValue → Bool
  | .arr _ => true
  | _ => false

/-- Elements of an array value (only consulted under an `isArray` guard). -/
def arrElems : JsValue → List JsValue
  | .arr xs => xs
  | _ => []

/-- Numeric value of a digit string (most significant first). -/
def digitsVal (ds : List Char) : ℕ :=
  ds.foldl (fun a c => 10 * a + (c.toNat - 48)) 0

/-- Leading decimal literal of a character list: optional sign, digits,
optional point and fraction digits. Models the fragment of the
`parseFloat` string grammar the payloads use (no exponent, no Infinity,
no leading whitespace). Returns `none` when no digit is found, which
`parseFloat` maps to NaN. -/
def parseFloatLead (cs : List Char) : Option ℚ :=
  let signed : Bool × List Char :=
    match cs with
    | '-' :: t => (true, t)
    | '+' :: t => (false, t)
    | _ => (false, cs)
  let ip := signed.2.takeWhile Char.isDigit
  let rest := signed.2.dropWhile Char.isDigit
  match rest with
  | '.' :: t =>
    let fp := t.takeWhile Char.isDigit
    if ip.isEmpty && fp.isEmpty then none
    else
      let q : ℚ := (digitsVal ip : ℚ) + (digitsVal fp : ℚ) / ((10 : ℚ) ^ fp.length)
      some (if signed.1 then -q else q)
  | _ =>
    if ip.isEmpty then none
    else some (if signed.1 then -(digitsVal ip : ℚ) else (digitsVal ip : ℚ))

/-- Leading integer literal of a character list: optional sign then
decimal digits, as in the no-radix `parseInt` string grammar (no 0x,
no leading whitespace). -/
def parseIntLead (cs : List Char) : Option ℤ :=
  let signed : Bool × List Char :=
    match cs with
    | '-' :: t => (true, t)
    | '+' :: t => (false, t)
    | _ => (false, cs)
  let ip := signed.2.takeWhile Char.isDigit
  if ip.isEmpty then none
  else some (if signed.1 then -(digitsVal ip : ℤ) else (digitsVal ip : ℤ))

/-- The JavaScript builtin `parseFloat`. A number argument round-trips
through its decimal rendering, so finite numbers are returned unchanged
and NaN stays NaN; strings are parsed by their leading decimal literal;
a one-element array coerces to the string of its element; everything
else renders to a non-numeric string and yields NaN. -/
def parseFloat : JsValue → JsNum
  | .num n => n
  | .str s =>
    match parseFloatLead s.data with
    | some q => .num q
    | none => .nan
  | .arr [v] => parseFloat v
  | _ => .nan

/-- Truncation toward zero, the effect of `parseInt` on a plainly
rendered finite number. -/
def jsTrunc (q : ℚ) : ℤ :=
  if 0 ≤ q then ⌊q⌋ else -⌊-q⌋

/-- The JavaScript builtin `parseInt` (no radix argument). A finite
number renders to its decimal string and parses back truncated toward
zero; NaN renders to a non-numeric string; strings are parsed by their
leading integer literal; a one-element array coerces to the string of
its element; booleans, null and undefined yield NaN. -/
def parseInt : JsValue → JsNum
  | .num (.num q) => .num (jsTrunc q : ℤ)
  | .num .nan => .nan
  | .str s =>
    match parseIntLead s.data with
    | some z => .num (z : ℚ)
    | none => .nan
  | .arr [v] => parseInt v
  | _ => .nan

/-- The JavaScript builtin `Boolean`, i.e. truthiness. -/
def jsBool (v : JsValue) : Bool := jsTruthy v

/-- Stored record for the clf_data channel (server.js lines 106-110):
`{value: parseFloat(value), rep: parseInt(rep), timestamp}`. Timestamps
are modelled as an abstract server-clock tick. -/
structure ClfRec where
  value : JsNum
  rep : JsNum
  timestamp : ℕ
deriving DecidableEq

/-- Stored record for the mc_data channel (server.js lines 140-144):
`{params: params.map(parseFloat), rep: parseInt(rep), timestamp}`. -/
structure McRec where
  params : List JsNum
  rep : JsNum
  timestamp : ℕ
deriving DecidableEq

/-- Stored record for the feedback_status channel (server.js lines
174-178): `{sent: Boolean(sent), rep: parseInt(rep), timestamp}`. -/
structure FbRec where
  sent : Bool
  rep : JsNum
  timestamp : ℕ
deriving DecidableEq

/-- Stored record for the run_number and feedback_number channels
(server.js lines 208-212 and 242-246):
`{value: parseInt(value), rep: parseInt(rep), timestamp}`. -/
structure NumRec where
  value : JsNum
  rep : JsNum
  timestamp : ℕ
deriving DecidableEq

/-- The Channel Store `latestData` (server.js lines 16-22): one slot per
channel, `none` for the literal `null` it is initialised with. -/
structure LatestData where
  clf_data : Option ClfRec
  mc_data : Option McRec
  feedback_status : Option FbRec
  run_number : Option NumRec
  feedback_number : Option NumRec
deriving DecidableEq

/-- Initial value of `latestData`: every channel null. -/
def initialLatestData : LatestData :=
  { clf_data := none, mc_data := none, feedback_status := none,
    run_number := none, feedback_number := none }

/-- WebSocket readyState constants. -/
inductive ReadyState where
  | CONNECTING
  | OPEN
  | CLOSING
  | CLOSED
deriving DecidableEq

/-- One observer connection: an opaque identity plus its transport
state. -/
structure Conn where
  id : ℕ
  readyState : ReadyState
deriving DecidableEq

/-- Whole-server mutable state: the Channel Store and the live client
set (`clients`, server.js line 25). The JS `Set` is modelled as a list
of connections with distinct identities. -/
structure ServerState where
  latestData : LatestData
  clients : List Conn
deriving DecidableEq

/-- Initial server state: empty store, no clients. -/
def initialState : ServerState :=
  { latestData := initialLatestData, clients := [] }

/-- The five channel names. -/
inductive Channel where
  | clf_data
  | mc_data
  | feedback_status
  | run_number
  | feedback_number
deriving DecidableEq

/-- Whether the store currently holds a record for the channel. -/
def populated (d : LatestData) : Channel → Bool
  | .clf_data => d.clf_data.isSome
  | .mc_data => d.mc_data.isSome
  | .feedback_status => d.feedback_status.isSome
  | .run_number => d.run_number.isSome
  | .feedback_number => d.feedback_number.isSome

/-- Number of channels currently holding a record. -/
def popCount (d : LatestData) : ℕ :=
  (if d.clf_data.isSome then 1 else 0) +
  (if d.mc_data.isSome then 1 else 0) +
  (if d.feedback_status.isSome then 1 else 0) +
  (if d.run_number.isSome then 1 else 0) +
  (if d.feedback_number.isSome then 1 else 0)

/-- A request body as destructured by the handlers: the four field
names any handler reads; an absent field destructures to undefined. -/
structure ReqBody where
  value : JsValue
  params : JsValue
  sent : JsValue
  rep : JsValue

/-- HTTP response of a handler: `res.json({success: true, message})`
or `res.status(400).json({error})`. -/
inductive Response where
  | ok (message : String)
  | clientError (error : String)
deriving DecidableEq

/-- True when the response is a 400 `{error}` response. -/
def isClientError : Response → Bool
  | .clientError _ => true
  | _ => false

/-- A JSON value as built for the wire. -/
inductive Json where
  | jnull
  | jbool (b : Bool)
  | jnum (n : JsNum)
  | jstr (s : String)
  | jarr (xs : List Json)
  | jobj (fields : List (String × Json))

/-- Rendering of a number inside `JSON.stringify` output.
`JSON.stringify` maps NaN to null; the rendering of a finite rational
is a simple placeholder (no theorem inspects the digits, only whether
two serializations are the same string). -/
def renderNum : JsNum → String
  | .nan => "null"
  | .num q => toString q.num ++ "e" ++ toString q.den

mutual

/-- `JSON.stringify` over the Json model. String escaping is not
modelled; every string the server serializes is a plain identifier or
timestamp. -/
def serialize : Json → String
  | .jnull => "null"
  | .jbool b => if b then "true" else "false"
  | .jnum n => renderNum n
  | .jstr s => "\"" ++ s ++ "\""
  | .jarr xs => "[" ++ serializeItems xs ++ "]"
  | .jobj fs => "\x7b" ++ serializeFields fs ++ "\x7d"

/-- Comma-separated serialization of array items. -/
def serializeItems : List Json → String
  | [] => ""
  | [x] => serialize x
  | x :: xs => serialize x ++ "," ++ serializeItems xs

/-- Comma-separated serialization of object fields. -/
def serializeFields : List (String × Json) → String
  | [] => ""
  | [(k, v)] => "\"" ++ k ++ "\":" ++ serialize v
  | (k, v) :: fs => "\"" ++ k ++ "\":" ++ serialize v ++ "," ++ serializeFields fs

end

/-- Field names of a JSON object (empty for non-objects). -/
def jsonKeys : Json → List String
  | .jobj fs => fs.map Prod.fst
  | _ => []

/-- First field with the given name in a JSON object. -/
def jsonLookup : Json → String → Option Json
  | .jobj fs, k => (fs.find? (fun p => p.1 == k)).map Prod.snd
  | _, _ => none

/-- ISO timestamp string of a record, modelled as the decimal rendering
of the server-clock tick (injective and order preserving, which is all
any theorem uses). -/
def tsString (t : ℕ) : String := toString t

/-- Broadcast event for clf_data (server.js lines 113-118):
`{type, value, rep, timestamp}`. -/
def clfEventJson (r : ClfRec) : Json :=
  .jobj [("type", .jstr "clf_data"), ("value", .jnum r.value),
         ("rep", .jnum r.rep), ("timestamp", .jstr (tsString r.timestamp))]

/-- Broadcast event for mc_data (server.js lines 147-152). -/
def mcEventJson (r : McRec) : Json :=
  .jobj [("type", .jstr "mc_data"), ("params", .jarr (r.params.map Json.jnum)),
         ("rep", .jnum r.rep), ("timestamp", .jstr (tsString r.timestamp))]

/-- Broadcast event for feedback_status (server.js lines 181-186). -/
def fbEventJson (r : FbRec) : Json :=
  .jobj [("type", .jstr "feedback_status"), ("sent", .jbool r.sent),
         ("rep", .jnum r.rep), ("timestamp", .jstr (tsString r.timestamp))]

/-- Broadcast event for run_number (server.js lines 215-220). -/
def runEventJson (r : NumRec) : Json :=
  .jobj [("type", .jstr "run_number"), ("value", .jnum r.value),
         ("rep", .jnum r.rep), ("timestamp", .jstr (tsString r.timestamp))]

/-- Broadcast event for feedback_number (server.js lines 249-254). -/
def fbnEventJson (r : NumRec) : Json :=
  .jobj [("type", .jstr "feedback_number"), ("value", .jnum r.value),
         ("rep", .jnum r.rep), ("timestamp", .jstr (tsString r.timestamp))]

/-- Replay message for clf_data sent to a newly connected client
(server.js lines 33-39): `{type, value, timestamp}` — note the absence
of the rep field, unlike the broadcast shape. -/
def clfReplayJson (r : ClfRec) : Json :=
  .jobj [("type", .jstr "clf_data"), ("value", .jnum r.value),
         ("timestamp", .jstr (tsString r.timestamp))]

/-- Replay message for mc_data (server.js lines 41-47). -/
def mcReplayJson (r : McRec) : Json :=
  .jobj [("type", .jstr "mc_data"), ("params", .jarr (r.params.map Json.jnum)),
         ("timestamp", .jstr (tsString r.timestamp))]

/-- Replay message for feedback_status (server.js lines 49-55). -/
def fbReplayJson (r : FbRec) : Json :=
  .jobj [("type", .jstr "feedback_status"), ("sent", .jbool r.sent),
         ("timestamp", .jstr (tsString r.timestamp))]

/-- Replay message for run_number (server.js lines 57-63). -/
def runReplayJson (r : NumRec) : Json :=
  .jobj [("type", .jstr "run_number"), ("value", .jnum r.value),
         ("timestamp", .jstr (tsString r.timestamp))]

/-- Replay message for feedback_number (server.js lines 65-71). -/
def fbnReplayJson (r : NumRec) : Json :=
  .jobj [("type", .jstr "feedback_number"), ("value", .jnum r.value),
         ("timestamp", .jstr (tsString r.timestamp))]

/-- An observable side effect of a handler, recorded in program order:
a Channel Store write or a `ws.send` of a serialized message to one
connection. -/
inductive Action where
  | setStore (c : Channel)
  | send (connId : ℕ) (msg : String)
deriving DecidableEq

/-- The `broadcast` function (server.js lines 85-92): serialize the
event once, then send that one message to every client in the set whose
readyState is OPEN; other clients are skipped, nothing is removed. -/
def broadcast (clients : List Conn) (data : Json) : List Action :=
  let message := serialize data
  (clients.filter fun c => c.readyState == ReadyState.OPEN).map
    fun c => Action.send c.id message

/-- Outcome of one HTTP POST handler: the state after the request, the
store writes and sends it performed in order, and its HTTP response. -/
structure HandlerResult where
  state : ServerState
  trace : List Action
  response : Response
deriving DecidableEq

/-- POST /clf_data handler (server.js lines 95-126): reject with 400
when `value` or `rep` is strictly undefined; otherwise overwrite
`latestData.clf_data` with the coerced record and then broadcast the
`{type, value, rep, timestamp}` event built from the stored record. -/
def postClfData (body : ReqBody) (now : ℕ) (st : ServerState) : HandlerResult :=
  if isUndef body.value || isUndef body.rep then
    { state := st, trace := [],
      response := .clientError "Missing required fields: value, rep" }
  else
    let r : ClfRec :=
      { value := parseFloat body.value, rep := parseInt body.rep, timestamp := now }
    let st1 : ServerState := { st with latestData := { st.latestData with clf_data := some r } }
    { state := st1,
      trace := Action.setStore Channel.clf_data :: broadcast st1.clients (clfEventJson r),
      response := .ok "Classifier data received" }

/-- POST /mc_data handler (server.js lines 129-160): reject with 400
when `params` is falsy or not an array or `rep` is strictly undefined;
otherwise store `params.map(parseFloat)` (whatever the array length or
element types) and broadcast. -/
def postMcData (body : ReqBody) (now : ℕ) (st : ServerState) : HandlerResult :=
  if !jsTruthy body.params || !isArray body.params || isUndef body.rep then
    { state := st, trace := [],
      response := .clientError "Missing required fields: params (array), rep" }
  else
    let r : McRec :=
      { params := (arrElems body.params).map parseFloat,
        rep := parseInt body.rep, timestamp := now }
    let st1 : ServerState := { st with latestData := { st.latestData with mc_data := some r } }
    { state := st1,
      trace := Action.setStore Channel.mc_data :: broadcast st1.clients (mcEventJson r),
      response := .ok "Motion correction data received" }

/-- POST /feedback_status handler (server.js lines 163-194): reject
with 400 when `sent` or `rep` is strictly undefined; otherwise store
`Boolean(sent)` and broadcast. -/
def postFeedbackStatus (body : ReqBody) (now : ℕ) (st : ServerState) : HandlerResult :=
  if isUndef body.sent || isUndef body.rep then
    { state := st, trace := [],
      response := .clientError "Missing required fields: sent (boolean), rep" }
  else
    let r : FbRec :=
      { sent := jsBool body.sent, rep := parseInt body.rep, timestamp := now }
    let st1 : ServerState :=
      { st with latestData := { st.latestData with feedback_status := some r } }
    { state := st1,
      trace := Action.setStore Channel.feedback_status ::
        broadcast st1.clients (fbEventJson r),
      response := .ok "Neurofeedback status received" }

/-- POST /run_number handler (server.js lines 197-228): reject with 400
when `value` or `rep` is strictly undefined; otherwise store
`parseInt(value)` and broadcast. -/
def postRunNumber (body : ReqBody) (now : ℕ) (st : ServerState) : HandlerResult :=
  if isUndef body.value || isUndef body.rep then
    { state := st, trace := [],
      response := .clientError "Missing required fields: value, rep" }
  else
    let r : NumRec :=
      { value := parseInt body.value, rep := parseInt body.rep, timestamp := now }
    let st1 : ServerState :=
      { st with latestData := { st.latestData with run_number := some r } }
    { state := st1,
      trace := Action.setStore Channel.run_number ::
        broadcast st1.clients (runEventJson r),
      response := .ok "Run number received" }

/-- POST /feedback_number handler (server.js lines 231-262): reject
with 400 when `value` or `rep` is strictly undefined; otherwise store
`parseInt(value)` and broadcast. -/
def postFeedbackNumber (body : ReqBody) (now : ℕ) (st : ServerState) : HandlerResult :=
  if isUndef body.value || isUndef body.rep then
    { state := st, trace := [],
      response := .clientError "Missing required fields: value, rep" }
  else
    let r : NumRec :=
      { value := parseInt body.value, rep := parseInt body.rep, timestamp := now }
    let st1 : ServerState :=
      { st with latestData := { st.latestData with feedback_number := some r } }
    { state := st1,
      trace := Action.setStore Channel.feedback_number ::
        broadcast st1.clients (fbnEventJson r),
      response := .ok "Feedback number received" }

/-- Replay messages a new connection receives (server.js lines 32-71):
one message per channel whose store slot is non-null, in the fixed
source order, each built from the current stored record. -/
def replayEvents (d : LatestData) : List Json :=
  (match d.clf_data with | some r => [clfReplayJson r] | none => []) ++
  (match d.mc_data with | some r => [mcReplayJson r] | none => []) ++
  (match d.feedback_status with | some r => [fbReplayJson r] | none => []) ++
  (match d.run_number with | some r => [runReplayJson r] | none => []) ++
  (match d.feedback_number with | some r => [fbnReplayJson r] | none => [])

/-- The `wss.on('connection')` handler (server.js lines 28-71): add the
fresh connection to the client set, then send it one serialized replay
message per populated channel. -/
def onConnection (ws : Conn) (st : ServerState) : ServerState × List Action :=
  ({ st with clients := st.clients ++ [ws] },
   (replayEvents st.latestData).map fun e => Action.send ws.id (serialize e))

/-- The `ws.on('close')` handler (server.js lines 73-76): remove the
connection from the client set. -/
def onClose (ws : Conn) (st : ServerState) : ServerState :=
  { st with clients := st.clients.filter fun c => c.id != ws.id }

/-- The `ws.on('error')` handler (server.js lines 78-81): remove the
connection from the client set. -/
def onError (ws : Conn) (st : ServerState) : ServerState :=
  { st with clients := st.clients.filter fun c => c.id != ws.id }

/-- JSON of an optional record: the record's JSON or null. -/
def optJson {α : Type} (f : α → Json) : Option α → Json
  | some r => f r
  | none => .jnull

/-- JSON of a stored clf_data record, key order value, rep, timestamp
(the record literal's insertion order, which both `res.json(latestData)`
and the /health projection reproduce). -/
def clfRecJson (r : ClfRec) : Json :=
  .jobj [("value", .jnum r.value), ("rep", .jnum r.rep),
         ("timestamp", .jstr (tsString r.timestamp))]

/-- JSON of a stored mc_data record. -/
def mcRecJson (r : McRec) : Json :=
  .jobj [("params", .jarr (r.params.map Json.jnum)), ("rep", .jnum r.rep),
         ("timestamp", .jstr (tsString r.timestamp))]

/-- JSON of a stored feedback_status record. -/
def fbRecJson (r : FbRec) : Json :=
  .jobj [("sent", .jbool r.sent), ("rep", .jnum r.rep),
         ("timestamp", .jstr (tsString r.timestamp))]

/-- JSON of a stored run_number or feedback_number record. -/
def numRecJson (r : NumRec) : Json :=
  .jobj [("value", .jnum r.value), ("rep", .jnum r.rep),
         ("timestamp", .jstr (tsString r.timestamp))]

/-- JSON of the whole Channel Store: all five channels always present,
a populated channel as its full record, a never-written channel as
null. This is both the GET /api/latest-data response body (server.js
lines 265-267) and the `latestData` field of /health (lines 280-306),
whose explicit projections copy every record field. -/
def latestDataJson (d : LatestData) : Json :=
  .jobj [("clf_data", optJson clfRecJson d.clf_data),
         ("mc_data", optJson mcRecJson d.mc_data),
         ("feedback_status", optJson fbRecJson d.feedback_status),
         ("run_number", optJson numRecJson d.run_number),
         ("feedback_number", optJson numRecJson d.feedback_number)]

/-- GET /health response body (server.js lines 275-308):
`{status: "ok", timestamp, connectedClients: clients.size, latestData}`.
A pure read of the state. -/
def getHealth (now : ℕ) (st : ServerState) : Json :=
  .jobj [("status", .jstr "ok"),
         ("timestamp", .jstr (tsString now)),
         ("connectedClients", .jnum (.num st.clients.length)),
         ("latestData", latestDataJson st.latestData)]

/-- GET /api/latest-data response body (server.js lines 265-267). -/
def getLatestData (st : ServerState) : Json :=
  latestDataJson st.latestData

/-- Every externally triggered operation of the relay, for stating
whole-system invariants. -/
inductive Op where
  | postClf (body : ReqBody) (now : ℕ)
  | postMc (body : ReqBody) (now : ℕ)
  | postFb (body : ReqBody) (now : ℕ)
  | postRun (body : ReqBody) (now : ℕ)
  | postFbn (body : ReqBody) (now : ℕ)
  | connect (ws : Conn)
  | closeConn (ws : Conn)
  | errorConn (ws : Conn)
  | readHealth (now : ℕ)
  | readLatest
  | callBroadcast (data : Json)

/-- State transition of one operation. The GET handlers and `broadcast`
perform no assignment to `latestData` or `clients` in the source, so
their transition is the identity. -/
def applyOp : Op → ServerState → ServerState
  | .postClf b n, st => (postClfData b n st).state
  | .postMc b n, st => (postMcData b n st).state
  | .postFb b n, st => (postFeedbackStatus b n st).state
  | .postRun b n, st => (postRunNumber b n st).state
  | .postFbn b n, st => (postFeedbackNumber b n st).state
  | .connect ws, st => (onConnection ws st).1
  | .closeConn ws, st => onClose ws st
  | .errorConn ws, st => onError ws st
  | .readHealth _, st => st
  | .readLatest, st => st
  | .callBroadcast _, st => st

/-- A request body with every field absent. -/
def undefBody : ReqBody :=
  { value := .undef, params := .undef, sent := .undef, rep := .undef }

/-- A request body supplying every field any handler requires. -/
def fullBody : ReqBody :=
  { value := .num (.num 2), params := .arr [.num (.num 1)],
    sent := .bool true, rep := .num (.num 3) }

/-- A state with an empty store and a single open observer. -/
def oneClientState : ServerState :=
  { latestData := initialLatestData, clients := [⟨0, .OPEN⟩] }

/-- A motion-correction body whose params array has five numeric
elements, not six. -/
def mcBody5 : ReqBody :=
  { value := .undef,
    params := .arr [.num (.num 1), .num (.num 2), .num (.num 3),
                    .num (.num 4), .num (.num 5)],
    sent := .undef, rep := .num (.num 42) }

/-- A classifier body whose fields are present but not numeric. -/
def clfBadBody : ReqBody :=
  { value := .str "abc", params := .undef, sent := .undef, rep := .str "xyz" }

/-- A classifier body with falsy-but-present fields: value 0, rep 0. -/
def clfZeroBody : ReqBody :=
  { value := .num (.num 0), params := .undef, sent := .undef, rep := .num (.num 0) }

/-- A feedback-status body with sent = false and rep = 0. -/
def fbFalseBody : ReqBody :=
  { value := .undef, params := .undef, sent := .bool false, rep := .num (.num 0) }

/-- A sample stored classifier record. -/
def sampleClfRec : ClfRec := { value := .num 1, rep := .num 42, timestamp := 5 }

/-- A store in which only clf_data is populated. -/
def sampleStore : LatestData := { initialLatestData with clf_data := some sampleClfRec }

/-- A state whose store holds one populated channel and no clients. -/
def sampleState : ServerState := { latestData := sampleStore, clients := [] }

/-- A client set containing one open and one closed connection. -/
def mixedClients : List Conn := [⟨0, .OPEN⟩, ⟨1, .CLOSED⟩]

/-- A sample broadcastable event. -/
def sampleEvent : Json := clfEventJson { value := .num 1, rep := .num 1, timestamp := 0 }

/-- C1 counterexample: a motion-correction submission whose params
array has only five numeric elements is not rejected by the code — it
returns success, overwrites the mc_data store slot, and its effect
trace is the store write followed by a broadcast send of the mc_data
event to the open observer. -/
theorem mc_five_param_submission_accepted :
    (postMcData mcBody5 7 oneClientState).response = .ok "Motion correction data received" ∧
    (postMcData mcBody5 7 oneClientState).state.latestData.mc_data =
      some { params := [.num 1, .num 2, .num 3, .num 4, .num 5],
             rep := .num 42, timestamp := 7 } ∧
    (postMcData mcBody5 7 oneClientState).trace =
      [Action.setStore Channel.mc_data,
       Action.send 0 (serialize (mcEventJson
         { params := [.num 1, .num 2, .num 3, .num 4, .num 5],
           rep := .num 42, timestamp := 7 }))] := by
  refine ⟨rfl, by decide, by decide⟩

/-- C1 (amended): the motion-correction handler validates only that
params is a truthy array and rep is not undefined; when that check
fails it rejects with 400 and no mutation, and when it passes it
accepts the submission — whatever the array's length or element
types — storing params elementwise through parseFloat, followed by the
broadcast of the mc_data event built from the stored record. -/
theorem mc_validation_checks_array_and_rep_only
    (body : ReqBody) (now : ℕ) (st : ServerState) :
    ((!jsTruthy body.params || !isArray body.params || isUndef body.rep) = true →
      postMcData body now st =
        { state := st, trace := [],
          response := .clientError "Missing required fields: params (array), rep" }) ∧
    ((!jsTruthy body.params || !isArray body.params || isUndef body.rep) = false →
      (postMcData body now st).response = .ok "Motion correction data received" ∧
      (postMcData body now st).state.latestData.mc_data =
        some { params := (arrElems body.params).map parseFloat,
               rep := parseInt body.rep, timestamp := now } ∧
      (postMcData body now st).state.clients = st.clients ∧
      (postMcData body now st).trace =
        Action.setStore Channel.mc_data ::
          broadcast st.clients (mcEventJson
            { params := (arrElems body.params).map parseFloat,
              rep := parseInt body.rep, timestamp := now })) := by
  constructor <;> intro h <;> simp [postMcData, h]

/-- Witness for the amended C1 theorem at the five-element body. -/
theorem mc_validation_witness :
    (postMcData mcBody5 7 oneClientState).response = .ok "Motion correction data received" ∧
    (postMcData mcBody5 7 oneClientState).state.latestData.mc_data =
      some { params := (arrElems mcBody5.params).map parseFloat,
             rep := parseInt mcBody5.rep, timestamp := 7 } ∧
    (postMcData mcBody5 7 oneClientState).state.clients = oneClientState.clients ∧
    (postMcData mcBody5 7 oneClientState).trace =
      Action.setStore Channel.mc_data ::
        broadcast oneClientState.clients (mcEventJson
          { params := (arrElems mcBody5.params).map parseFloat,
            rep := parseInt mcBody5.rep, timestamp := 7 }) :=
  (mc_validation_checks_array_and_rep_only mcBody5 7 oneClientState).2 (by decide)

/-- C2 counterexample: a classifier submission whose value and rep are
present but not numerically coercible ("abc", "xyz") is not rejected —
it returns success and stores a record whose value and rep are both
NaN, so the store does hold a record outside the declared
float64/int shape. -/
theorem clf_uncoercible_value_accepted :
    (postClfData clfBadBody 3 oneClientState).response = .ok "Classifier data received" ∧
    (postClfData clfBadBody 3 oneClientState).state.latestData.clf_data =
      some { value := .nan, rep := .nan, timestamp := 3 } ∧
    (postClfData clfBadBody 3 oneClientState).trace ≠ [] := by
  refine ⟨rfl, by decide, by decide⟩

/-- C2 (amended): every handler rejects with a 400 `{error}` exactly
when a required field is strictly undefined (for motion-correction,
when params is not a truthy array); present-but-uncoercible fields are
accepted, and the stored record is the field-wise coercion of the
payload — its keys always have the declared shape, but numeric fields
can hold NaN. -/
theorem presence_only_validation (body : ReqBody) (now : ℕ) (st : ServerState) :
    (isClientError (postClfData body now st).response =
      (isUndef body.value || isUndef body.rep)) ∧
    ((isUndef body.value || isUndef body.rep) = false →
      (postClfData body now st).state.latestData.clf_data =
        some { value := parseFloat body.value, rep := parseInt body.rep,
               timestamp := now }) ∧
    (isClientError (postMcData body now st).response =
      (!jsTruthy body.params || !isArray body.params || isUndef body.rep)) ∧
    ((!jsTruthy body.params || !isArray body.params || isUndef body.rep) = false →
      (postMcData body now st).state.latestData.mc_data =
        some { params := (arrElems body.params).map parseFloat,
               rep := parseInt body.rep, timestamp := now }) ∧
    (isClientError (postFeedbackStatus body now st).response =
      (isUndef body.sent || isUndef body.rep)) ∧
    ((isUndef body.sent || isUndef body.rep) = false →
      (postFeedbackStatus body now st).state.latestData.feedback_status =
        some { sent := jsBool body.sent, rep := parseInt body.rep,
               timestamp := now }) ∧
    (isClientError (postRunNumber body now st).response =
      (isUndef body.value || isUndef body.rep)) ∧
    ((isUndef body.value || isUndef body.rep) = false →
      (postRunNumber body now st).state.latestData.run_number =
        some { value := parseInt body.value, rep := parseInt body.rep,
               timestamp := now }) ∧
    (isClientError (postFeedbackNumber body now st).response =
      (isUndef body.value || isUndef body.rep)) ∧
    ((isUndef body.value || isUndef body.rep) = false →
      (postFeedbackNumber body now st).state.latestData.feedback_number =
        some { value := parseInt body.value, rep := parseInt body.rep,
               timestamp := now }) := by
  refine ⟨?_, ?_, ?_, ?_, ?_, ?_, ?_, ?_, ?_, ?_⟩
  · by_cases h : (isUndef body.value || isUndef body.rep) = true <;>
      simp [postClfData, isClientError, h]
  · intro h; simp [postClfData, h]
  · by_cases h : (!jsTruthy body.params || !isArray body.params || isUndef body.rep) = true <;>
      simp [postMcData, isClientError, h]
  · intro h; simp [postMcData, h]
  · by_cases h : (isUndef body.sent || isUndef body.rep) = true <;>
      simp [postFeedbackStatus, isClientError, h]
  · intro h; simp [postFeedbackStatus, h]
  · by_cases h : (isUndef body.value || isUndef body.rep) = true <;>
      simp [postRunNumber, isClientError, h]
  · intro h; simp [postRunNumber, h]
  · by_cases h : (isUndef body.value || isUndef body.rep) = true <;>
      simp [postFeedbackNumber, isClientError, h]
  · intro h; simp [postFeedbackNumber, h]

/-- Witness for the amended C2 theorem: all five storage implications
instantiated at a fully populated body. -/
theorem presence_only_validation_witness :
    (postClfData fullBody 11 oneClientState).state.latestData.clf_data =
      some { value := parseFloat fullBody.value, rep := parseInt fullBody.rep,
             timestamp := 11 } ∧
    (postMcData fullBody 11 oneClientState).state.latestData.mc_data =
      some { params := (arrElems fullBody.params).map parseFloat,
             rep := parseInt fullBody.rep, timestamp := 11 } ∧
    (postFeedbackStatus fullBody 11 oneClientState).state.latestData.feedback_status =
      some { sent := jsBool fullBody.sent, rep := parseInt fullBody.rep,
             timestamp := 11 } ∧
    (postRunNumber fullBody 11 oneClientState).state.latestData.run_number =
      some { value := parseInt fullBody.value, rep := parseInt fullBody.rep,
             timestamp := 11 } ∧
    (postFeedbackNumber fullBody 11 oneClientState).state.latestData.feedback_number =
      some { value := parseInt fullBody.value, rep := parseInt fullBody.rep,
             timestamp := 11 } :=
  ⟨(presence_only_validation fullBody 11 oneClientState).2.1 (by decide),
   (presence_only_validation fullBody 11 oneClientState).2.2.2.1 (by decide),
   (presence_only_validation fullBody 11 oneClientState).2.2.2.2.2.1 (by decide),
   (presence_only_validation fullBody 11 oneClientState).2.2.2.2.2.2.2.1 (by decide),
   (presence_only_validation fullBody 11 oneClientState).2.2.2.2.2.2.2.2.2 (by decide)⟩

/-- C3: with exactly one populated channel, a new observer receives
exactly one replay message built from that channel's stored record,
but the replayed event's keys are only type, value and timestamp — the
rep field that the broadcast shape (and the repository's own WebSocket
event documentation) carries is missing from replay. -/
theorem replay_omits_rep_field :
    (onConnection ⟨7, .OPEN⟩ sampleState).2 =
      [Action.send 7 (serialize (clfReplayJson sampleClfRec))] ∧
    jsonKeys (clfReplayJson sampleClfRec) = ["type", "value", "timestamp"] ∧
    jsonKeys (clfEventJson sampleClfRec) = ["type", "value", "rep", "timestamp"] := by
  refine ⟨by decide, rfl, rfl⟩

/-- C4: for every channel, a submission passing that channel's
validation stores the field-wise coerced record stamped with the
current server time (hence at or after the call time), leaves the
client set untouched, answers success, and its effect trace is the
store write followed by the broadcast of the single event built from
the just-stored record. -/
theorem submit_stores_then_broadcasts
    (body : ReqBody) (now callTime : ℕ) (st : ServerState) (hc : callTime ≤ now) :
    ((isUndef body.value || isUndef body.rep) = false →
      (postClfData body now st).state.latestData.clf_data =
        some { value := parseFloat body.value, rep := parseInt body.rep,
               timestamp := now } ∧
      (postClfData body now st).state.clients = st.clients ∧
      (postClfData body now st).trace =
        Action.setStore Channel.clf_data ::
          broadcast st.clients (clfEventJson
            { value := parseFloat body.value, rep := parseInt body.rep,
              timestamp := now }) ∧
      (postClfData body now st).response = .ok "Classifier data received" ∧
      callTime ≤ now) ∧
    ((!jsTruthy body.params || !isArray body.params || isUndef body.rep) = false →
      (postMcData body now st).state.latestData.mc_data =
        some { params := (arrElems body.params).map parseFloat,
               rep := parseInt body.rep, timestamp := now } ∧
      (postMcData body now st).state.clients = st.clients ∧
      (postMcData body now st).trace =
        Action.setStore Channel.mc_data ::
          broadcast st.clients (mcEventJson
            { params := (arrElems body.params).map parseFloat,
              rep := parseInt body.rep, timestamp := now }) ∧
      (postMcData body now st).response = .ok "Motion correction data received" ∧
      callTime ≤ now) ∧
    ((isUndef body.sent || isUndef body.rep) = false →
      (postFeedbackStatus body now st).state.latestData.feedback_status =
        some { sent := jsBool body.sent, rep := parseInt body.rep,
               timestamp := now } ∧
      (postFeedbackStatus body now st).state.clients = st.clients ∧
      (postFeedbackStatus body now st).trace =
        Action.setStore Channel.feedback_status ::
          broadcast st.clients (fbEventJson
            { sent := jsBool body.sent, rep := parseInt body.rep,
              timestamp := now }) ∧
      (postFeedbackStatus body now st).response = .ok "Neurofeedback status received" ∧
      callTime ≤ now) ∧
    ((isUndef body.value || isUndef body.rep) = false →
      (postRunNumber body now st).state.latestData.run_number =
        some { value := parseInt body.value, rep := parseInt body.rep,
               timestamp := now } ∧
      (postRunNumber body now st).state.clients = st.clients ∧
      (postRunNumber body now st).trace =
        Action.setStore Channel.run_number ::
          broadcast st.clients (runEventJson
            { value := parseInt body.value, rep := parseInt body.rep,
              timestamp := now }) ∧
      (postRunNumber body now st).response = .ok "Run number received" ∧
      callTime ≤ now) ∧
    ((isUndef body.value || isUndef body.rep) = false →
      (postFeedbackNumber body now st).state.latestData.feedback_number =
        some { value := parseInt body.value, rep := parseInt body.rep,
               timestamp := now } ∧
      (postFeedbackNumber body now st).state.clients = st.clients ∧
      (postFeedbackNumber body now st).trace =
        Action.setStore Channel.feedback_number ::
          broadcast st.clients (fbnEventJson
            { value := parseInt body.value, rep := parseInt body.rep,
              timestamp := now }) ∧
      (postFeedbackNumber body now st).response = .ok "Feedback number received" ∧
      callTime ≤ now) := by
  refine ⟨?_, ?_, ?_, ?_, ?_⟩ <;> intro h
  · simpa [postClfData, h] using hc
  · simpa [postMcData, h] using hc
  · simpa [postFeedbackStatus, h] using hc
  · simpa [postRunNumber, h] using hc
  · simpa [postFeedbackNumber, h] using hc

/-- Witness for C4: the classifier conjunct instantiated at a concrete
payload, call time and state. -/
theorem submit_stores_then_broadcasts_witness :
    (postClfData fullBody 9 oneClientState).state.latestData.clf_data =
      some { value := parseFloat fullBody.value, rep := parseInt fullBody.rep,
             timestamp := 9 } ∧
    (postClfData fullBody 9 oneClientState).state.clients = oneClientState.clients ∧
    (postClfData fullBody 9 oneClientState).trace =
      Action.setStore Channel.clf_data ::
        broadcast oneClientState.clients (clfEventJson
          { value := parseFloat fullBody.value, rep := parseInt fullBody.rep,
            timestamp := 9 }) ∧
    (postClfData fullBody 9 oneClientState).response = .ok "Classifier data received" ∧
    4 ≤ 9 :=
  (submit_stores_then_broadcasts fullBody 9 4 oneClientState (by decide)).1 (by decide)

/-- C5: whenever any of the five handlers answers a client error, the
whole server state (store and client set) is exactly what it was and
the handler performed no store write and no send at all. -/
theorem invalid_submission_atomic (body : ReqBody) (now : ℕ) (st : ServerState) :
    (isClientError (postClfData body now st).response = true →
      (postClfData body now st).state = st ∧ (postClfData body now st).trace = []) ∧
    (isClientError (postMcData body now st).response = true →
      (postMcData body now st).state = st ∧ (postMcData body now st).trace = []) ∧
    (isClientError (postFeedbackStatus body now st).response = true →
      (postFeedbackStatus body now st).state = st ∧
      (postFeedbackStatus body now st).trace = []) ∧
    (isClientError (postRunNumber body now st).response = true →
      (postRunNumber body now st).state = st ∧
      (postRunNumber body now st).trace = []) ∧
    (isClientError (postFeedbackNumber body now st).response = true →
      (postFeedbackNumber body now st).state = st ∧
      (postFeedbackNumber body now st).trace = []) := by
  refine ⟨?_, ?_, ?_, ?_, ?_⟩ <;> intro h
  · unfold postClfData at *
    split at h <;> simp_all [isClientError]
  · unfold postMcData at *
    split at h <;> simp_all [isClientError]
  · unfold postFeedbackStatus at *
    split at h <;> simp_all [isClientError]
  · unfold postRunNumber at *
    split at h <;> simp_all [isClientError]
  · unfold postFeedbackNumber at *
    split at h <;> simp_all [isClientError]

/-- Witness for C5: the all-fields-absent body is rejected by every
handler with no state change and no effects. -/
theorem invalid_submission_atomic_witness :
    (postClfData undefBody 3 oneClientState).state = oneClientState ∧
    (postClfData undefBody 3 oneClientState).trace = [] :=
  (invalid_submission_atomic undefBody 3 oneClientState).1 (by decide)

/-- C6: the health response carries status, server timestamp, the live
connection count and a latestData object that mirrors the full store:
all five channels are always present as keys, a populated channel maps
to its complete stored record and a never-written channel to null; the
polling endpoint returns the same latestData object, and neither read
changes any state. -/
theorem health_mirrors_store (now : ℕ) (st : ServerState) :
    getHealth now st =
      .jobj [("status", .jstr "ok"),
             ("timestamp", .jstr (tsString now)),
             ("connectedClients", .jnum (.num st.clients.length)),
             ("latestData", latestDataJson st.latestData)] ∧
    getLatestData st = latestDataJson st.latestData ∧
    jsonKeys (latestDataJson st.latestData) =
      ["clf_data", "mc_data", "feedback_status", "run_number", "feedback_number"] ∧
    (st.latestData.clf_data = none →
      jsonLookup (latestDataJson st.latestData) "clf_data" = some .jnull) ∧
    (∀ r, st.latestData.clf_data = some r →
      jsonLookup (latestDataJson st.latestData) "clf_data" = some (clfRecJson r)) ∧
    (st.latestData.mc_data = none →
      jsonLookup (latestDataJson st.latestData) "mc_data" = some .jnull) ∧
    (∀ r, st.latestData.mc_data = some r →
      jsonLookup (latestDataJson st.latestData) "mc_data" = some (mcRecJson r)) ∧
    (st.latestData.feedback_status = none →
      jsonLookup (latestDataJson st.latestData) "feedback_status" = some .jnull) ∧
    (∀ r, st.latestData.feedback_status = some r →
      jsonLookup (latestDataJson st.latestData) "feedback_status" = some (fbRecJson r)) ∧
    (st.latestData.run_number = none →
      jsonLookup (latestDataJson st.latestData) "run_number" = some .jnull) ∧
    (∀ r, st.latestData.run_number = some r →
      jsonLookup (latestDataJson st.latestData) "run_number" = some (numRecJson r)) ∧
    (st.latestData.feedback_number = none →
      jsonLookup (latestDataJson st.latestData) "feedback_number" = some .jnull) ∧
    (∀ r, st.latestData.feedback_number = some r →
      jsonLookup (latestDataJson st.latestData) "feedback_number" = some (numRecJson r)) ∧
    applyOp (.readHealth now) st = st ∧
    applyOp .readLatest st = st := by
  refine ⟨rfl, rfl, rfl, ?_, ?_, ?_, ?_, ?_, ?_, ?_, ?_, ?_, ?_, rfl, rfl⟩ <;>
    intro h <;> try intro hh
  all_goals simp_all [latestDataJson, jsonLookup, optJson]

/-- Witness for C6: the mirror implications instantiated at the sample
state, whose store has clf_data populated and the rest absent. -/
theorem health_mirrors_store_witness :
    jsonLookup (latestDataJson sampleState.latestData) "clf_data" =
      some (clfRecJson sampleClfRec) ∧
    jsonLookup (latestDataJson sampleState.latestData) "mc_data" = some .jnull ∧
    jsonLookup (latestDataJson sampleState.latestData) "feedback_status" = some .jnull ∧
    jsonLookup (latestDataJson sampleState.latestData) "run_number" = some .jnull ∧
    jsonLookup (latestDataJson sampleState.latestData) "feedback_number" = some .jnull :=
  ⟨(health_mirrors_store 2 sampleState).2.2.2.2.1 sampleClfRec rfl,
   (health_mirrors_store 2 sampleState).2.2.2.2.2.1 rfl,
   (health_mirrors_store 2 sampleState).2.2.2.2.2.2.2.1 rfl,
   (health_mirrors_store 2 sampleState).2.2.2.2.2.2.2.2.2.1 rfl,
   (health_mirrors_store 2 sampleState).2.2.2.2.2.2.2.2.2.2.2.1 rfl⟩

/-- C7 counterexample: with a closed connection present in the live
set, a broadcast produces a send only for the open connection — the
closed member of the live set is sent nothing, so not every connection
in the live set receives the event. -/
theorem broadcast_skips_closed_member :
    Conn.mk 1 .CLOSED ∈ mixedClients ∧
    broadcast mixedClients sampleEvent =
      [Action.send 0 (serialize sampleEvent)] := by
  refine ⟨by decide, by decide⟩

/-- C7 (amended): a broadcast serializes the event once and sends that
one identical string to exactly the connections of the live set whose
readyState is OPEN, in set order; every send it performs carries that
same string, and every open member of the set receives it. -/
theorem broadcast_single_serialization_to_open (cs : List Conn) (data : Json) :
    broadcast cs data =
      (cs.filter fun c => c.readyState == ReadyState.OPEN).map
        (fun c => Action.send c.id (serialize data)) ∧
    (∀ a ∈ broadcast cs data, ∃ i, a = Action.send i (serialize data)) ∧
    (∀ c ∈ cs, c.readyState = ReadyState.OPEN →
      Action.send c.id (serialize data) ∈ broadcast cs data) := by
  refine ⟨rfl, ?_, ?_⟩
  · intro a ha
    simp only [broadcast, List.mem_map, List.mem_filter] at ha
    obtain ⟨c, _, rfl⟩ := ha
    exact ⟨c.id, rfl⟩
  · intro c hc h
    simp only [broadcast, List.mem_map, List.mem_filter]
    exact ⟨c, ⟨hc, by simp [h]⟩, rfl⟩

/-- Witness for the amended C7 theorem: the open member of the mixed
client set receives the serialized event. -/
theorem broadcast_single_serialization_witness :
    Action.send 0 (serialize sampleEvent) ∈ broadcast mixedClients sampleEvent :=
  (broadcast_single_serialization_to_open mixedClients sampleEvent).2.2
    ⟨0, .OPEN⟩ (by decide) rfl

/-- C8: every channel starts absent in the initial store, and no
operation of the server — valid or invalid submissions, connects,
disconnects, errors, reads or broadcasts — ever takes a populated
channel back to absent. -/
theorem store_entries_never_deleted :
    (∀ c, populated initialState.latestData c = false) ∧
    (∀ op st c, populated st.latestData c = true →
      populated (applyOp op st).latestData c = true) := by
  constructor
  · intro c; cases c <;> rfl
  · intro op st c h
    cases op <;> cases c <;>
      simp_all [applyOp, postClfData, postMcData, postFeedbackStatus,
        postRunNumber, postFeedbackNumber, onConnection, onClose, onError,
        populated] <;>
      split <;> simp_all

/-- Witness for C8: a populated channel stays populated across a
disconnect. -/
theorem store_entries_never_deleted_witness :
    populated (applyOp (Op.closeConn ⟨0, .OPEN⟩) sampleState).latestData
      Channel.clf_data = true :=
  store_entries_never_deleted.2 (Op.closeConn ⟨0, .OPEN⟩) sampleState
    Channel.clf_data (by decide)

/-- C9: field presence is tested with strict undefined comparison, so
the validation verdict of the classifier and feedback-status handlers
is exactly the undefined-ness of their required fields, and the falsy
payloads value 0 with rep 0, and sent false with rep 0, are accepted:
they are stored with their falsy values and broadcast to the open
client, not rejected as missing. -/
theorem falsy_present_fields_accepted :
    (∀ body now st, isClientError (postClfData (body : ReqBody) (now : ℕ)
        (st : ServerState)).response = (isUndef body.value || isUndef body.rep)) ∧
    (∀ body now st, isClientError (postFeedbackStatus (body : ReqBody) (now : ℕ)
        (st : ServerState)).response = (isUndef body.sent || isUndef body.rep)) ∧
    (postClfData clfZeroBody 11 oneClientState).response = .ok "Classifier data received" ∧
    (postClfData clfZeroBody 11 oneClientState).state.latestData.clf_data =
      some { value := .num 0, rep := .num 0, timestamp := 11 } ∧
    (postClfData clfZeroBody 11 oneClientState).trace =
      [Action.setStore Channel.clf_data,
       Action.send 0 (serialize (clfEventJson
         { value := .num 0, rep := .num 0, timestamp := 11 }))] ∧
    (postFeedbackStatus fbFalseBody 12 oneClientState).response =
      .ok "Neurofeedback status received" ∧
    (postFeedbackStatus fbFalseBody 12 oneClientState).state.latestData.feedback_status =
      some { sent := false, rep := .num 0, timestamp := 12 } ∧
    (postFeedbackStatus fbFalseBody 12 oneClientState).trace =
      [Action.setStore Channel.feedback_status,
       Action.send 0 (serialize (fbEventJson
         { sent := false, rep := .num 0, timestamp := 12 }))] := by
  refine ⟨?_, ?_, rfl, by decide, by decide, rfl, by decide, by decide⟩
  · intro body now st
    by_cases h : (isUndef body.value || isUndef body.rep) = true <;>
      simp [postClfData, isClientError, h]
  · intro body now st
    by_cases h : (isUndef body.sent || isUndef body.rep) = true <;>
      simp [postFeedbackStatus, isClientError, h]

/-- C10: calling broadcast leaves both the Channel Store and the live
connection set exactly as they were; every send it performs goes to a
connection that is in the live set and open (skipped, never removed);
and the only operations that can change the live connection set are
connection accept, close and error. -/
theorem broadcast_frame_conditions (data : Json) (st : ServerState) :
    applyOp (.callBroadcast data) st = st ∧
    (∀ a ∈ broadcast st.clients data, ∃ c, c ∈ st.clients ∧
      c.readyState = ReadyState.OPEN ∧ a = Action.send c.id (serialize data)) ∧
    (∀ op, (applyOp op st).clients ≠ st.clients →
      (∃ ws, op = Op.connect ws) ∨ (∃ ws, op = Op.closeConn ws) ∨
      (∃ ws, op = Op.errorConn ws)) := by
  refine ⟨rfl, ?_, ?_⟩
  · intro a ha
    simp only [broadcast, List.mem_map, List.mem_filter] at ha
    obtain ⟨c, ⟨hmem, hopen⟩, rfl⟩ := ha
    exact ⟨c, hmem, by simpa using hopen, rfl⟩
  · intro op hop
    cases op with
    | connect ws => exact Or.inl ⟨ws, rfl⟩
    | closeConn ws => exact Or.inr (Or.inl ⟨ws, rfl⟩)
    | errorConn ws => exact Or.inr (Or.inr ⟨ws, rfl⟩)
    | postClf b n =>
      exfalso; apply hop
      show (postClfData b n st).state.clients = st.clients
      unfold postClfData
      split <;> rfl
    | postMc b n =>
      exfalso; apply hop
      show (postMcData b n st).state.clients = st.clients
      unfold postMcData
      split <;> rfl
    | postFb b n =>
      exfalso; apply hop
      show (postFeedbackStatus b n st).state.clients = st.clients
      unfold postFeedbackStatus
      split <;> rfl
    | postRun b n =>
      exfalso; apply hop
      show (postRunNumber b n st).state.clients = st.clients
      unfold postRunNumber
      split <;> rfl
    | postFbn b n =>
      exfalso; apply hop
      show (postFeedbackNumber b n st).state.clients = st.clients
      unfold postFeedbackNumber
      split <;> rfl
    | readHealth n => exact absurd rfl hop
    | readLatest => exact absurd rfl hop
    | callBroadcast d => exact absurd rfl hop

/-- Witness for C10: the client set shrinks across a close, and close
is indeed one of the three lifecycle operations. -/
theorem broadcast_frame_conditions_witness :
    (∃ ws, Op.closeConn (Conn.mk 0 .OPEN) = Op.connect ws) ∨
    (∃ ws, Op.closeConn (Conn.mk 0 .OPEN) = Op.closeConn ws) ∨
    (∃ ws, Op.closeConn (Conn.mk 0 .OPEN) = Op.errorConn ws) :=
  (broadcast_frame_conditions sampleEvent oneClientState).2.2
    (Op.closeConn ⟨0, .OPEN⟩) (by decide)

end Dashboard
